import Mathlib

/-!
Verification development for the `ctypes_example` repository.

The repository has two native libraries:
* `clib2/Point.c` — a `Point` struct with show/move functions (by value and
  by reference), a process-wide `static int counter`, and an allocate/free
  pair (`getPointPointer` / `freePointPointer`).
* `clib1` — described in `clib1/ctypes.md`: the C function
  `add_one_to_string(char *input)` which increments every byte of a
  NUL-terminated buffer in place, and the Python/ctypes host code that calls
  it with an immutable string and with a mutable `create_string_buffer`.

The embedding below models C memory as an association list from addresses
(`Nat`, with `0` playing the role of the null pointer) to `Point` values,
the process-wide counter as an explicit `Int` state component, and `printf`
output as a list of formatted strings.  Undefined behaviour (dereference of
a null, dangling or freed pointer) is modelled as `none`: an operation that
would touch dead storage has no defined normal return.
-/

/-- The C struct `Point` from `Point.h`: two integer fields `x` and `y`.
C `int` arithmetic here never approaches the width bound in any claim, and
signed overflow is undefined behaviour in C, so fields are modelled as
unbounded `Int`. -/
structure Point where
  x : Int
  y : Int
deriving DecidableEq

/-- The heap: live `malloc`ed cells, as an association list from address to
the `Point` stored there. -/
abbrev Heap := List (Nat × Point)

/-- The whole mutable state of the `clib2` native library: the
`static int counter = 0`, the live heap cells, and the next fresh address
the allocator will hand out (addresses start at 1; address 0 is NULL). -/
structure CLibState where
  counter : Int
  heap : Heap
  nextAddr : Nat
deriving DecidableEq

/-- The state of `clib2` at process start: `counter = 0`, nothing
allocated. -/
def initState : CLibState := { counter := 0, heap := [], nextAddr := 1 }

/-- Reading the `Point` at an address: the first matching cell, or `none`
when the address is not live (null, dangling or freed). -/
def heapLookup : Heap → Nat → Option Point
  | [], _ => none
  | e :: t, a => if e.1 = a then some e.2 else heapLookup t a

/-- Writing through a `Point*`: replace the cell(s) at the address. -/
def heapUpdate : Heap → Nat → Point → Heap
  | [], _, _ => []
  | e :: t, a, p => if e.1 = a then (a, p) :: heapUpdate t a p else e :: heapUpdate t a p

/-- `free`: the cell at the address stops being live. -/
def heapRemove : Heap → Nat → Heap
  | [], _ => []
  | e :: t, a => if e.1 = a then heapRemove t a else e :: heapRemove t a

/-- `showPoint` from `Point.c`: display a `Point` received by value.
The result is the `printf` output of the body. -/
def showPoint (point : Point) : List String :=
  ["Point in C      is (" ++ toString point.x ++ ", " ++ toString point.y ++ ")"]

/-- The body of `showPointRef` from `Point.c`, applied to the `Point` the
argument pointer refers to: it prints `*point` with the same format string
as `showPoint`. -/
def showPointRefBody (point : Point) : List String :=
  ["Point in C      is (" ++ toString point.x ++ ", " ++ toString point.y ++ ")"]

/-- A host call `showPoint(*a)` reading the argument out of storage at
address `a`: pass-by-value hands the callee a copy, the callee body only
prints, so the library state is returned unchanged. -/
def callShowPoint (st : CLibState) (a : Nat) : Option (CLibState × List String) :=
  match heapLookup st.heap a with
  | none => none
  | some point => some (st, showPoint point)

/-- A host call `showPointRef(a)`: the callee reads `point->x` and
`point->y` through the pointer (so the storage must be live) and prints
them; it never writes. -/
def callShowPointRef (st : CLibState) (a : Nat) : Option (CLibState × List String) :=
  match heapLookup st.heap a with
  | none => none
  | some point => some (st, showPointRefBody point)

/-- `movePoint` from `Point.c`: the body receives a copy of the caller's
`Point`, prints it, increments both fields of the copy, prints again.
Returns the final value of the local copy and the output. -/
def movePoint (point : Point) : Point × List String :=
  let out1 := "Point in C      is (" ++ toString point.x ++ ", " ++ toString point.y ++ ")"
  let point2 := Point.mk (point.x + 1) (point.y + 1)
  let out2 := "Point in C      is (" ++ toString point2.x ++ ", " ++ toString point2.y ++ ")"
  (point2, [out1, out2])

/-- A host call `movePoint(p)` where `p` is the `Point` stored at address
`a`: C pass-by-value evaluates the argument (a read) and gives the callee
its own fresh storage, so the callee body (`movePoint`) has no access to
the caller's storage and the library state passes through unchanged. -/
def callMovePoint (st : CLibState) (a : Nat) : Option (CLibState × List String) :=
  match heapLookup st.heap a with
  | none => none
  | some point => some (st, (movePoint point).2)

/-- `movePointRef` from `Point.c`, as a call on the full state: prints the
referenced `Point`, increments both fields through the pointer (mutating
the caller's storage), prints the new value. -/
def movePointRef (st : CLibState) (a : Nat) : Option (CLibState × List String) :=
  match heapLookup st.heap a with
  | none => none
  | some point =>
    let out1 := "Point in C      is (" ++ toString point.x ++ ", " ++ toString point.y ++ ")"
    let point2 := Point.mk (point.x + 1) (point.y + 1)
    let out2 := "New point in C  is (" ++ toString point2.x ++ ", " ++ toString point2.y ++ ")"
    some ({ st with heap := heapUpdate st.heap a point2 }, [out1, out2])

/-- `getPoint` from `Point.c`: `Point point = { counter++, counter++ };`
so `x` takes the current counter, `y` the next value, and the counter
advances by two; the point is returned by value. -/
def getPoint (st : CLibState) : Point × CLibState × List String :=
  let point := Point.mk st.counter (st.counter + 1)
  (point, { st with counter := st.counter + 2 },
    ["Returning Point    (" ++ toString point.x ++ ", " ++ toString point.y ++ ")"])

/-- `getPointPointer` from `Point.c`: `malloc` a fresh cell, fill
`point->x = counter++; point->y = counter++;`, return the pointer.
The returned address is the first component. -/
def getPointPointer (st : CLibState) : Nat × CLibState × List String :=
  let a := st.nextAddr
  let point := Point.mk st.counter (st.counter + 1)
  (a,
    { counter := st.counter + 2, heap := (a, point) :: st.heap, nextAddr := st.nextAddr + 1 },
    ["Returning Point    (" ++ toString point.x ++ ", " ++ toString point.y ++ ") at "
      ++ toString a])

/-- `freePointPointer` from `Point.c`: it first reads `point->x` and
`point->y` through the argument for the `printf`, then `free(point)`.
The read requires live storage, so a null, dangling or already-freed
argument is undefined behaviour (`none`); on live storage the cell is
removed from the heap. -/
def freePointPointer (st : CLibState) (a : Nat) : Option (CLibState × List String) :=
  match heapLookup st.heap a with
  | none => none
  | some point =>
    some ({ st with heap := heapRemove st.heap a },
      ["Freeing Point      (" ++ toString point.x ++ ", " ++ toString point.y ++ ") at "
        ++ toString a])

/-- C `strlen` on a byte buffer: the number of bytes before the first zero
byte (the whole length when the buffer holds no zero byte, in which case
the C original would read past the end). -/
def strlen : List Nat → Nat
  | [] => 0
  | b :: rest => if b = 0 then 0 else strlen rest + 1

/-- The loop of `add_one_to_string` from `clib1` (quoted in `ctypes.md`):
`for (; ii < strlen(input); ii++) input[ii]++;` — note `strlen` is
re-evaluated on the current buffer at every iteration.  Bytes wrap modulo
256.  The fuel argument only bounds the recursion: the loop runs at most
`strlen` times (`ii` starts at 0 and grows by one), and `strlen` never
exceeds the buffer length, which `List.set` preserves, so fuel equal to
the buffer length never cuts the loop short. -/
def addOneAux : Nat → List Nat → Nat → List Nat
  | 0, buf, _ => buf
  | fuel + 1, buf, ii =>
    if ii < strlen buf then
      addOneAux fuel (buf.set ii ((buf.getD ii 0 + 1) % 256)) (ii + 1)
    else buf

/-- `void add_one_to_string(char *input)`: adds 1 to each byte of the
buffer up to the (re-evaluated) string length. -/
def add_one_to_string (input : List Nat) : List Nat :=
  addOneAux input.length input 0

/-- Boundary failure taxonomy of the marshalling layer (spec section 7);
`classificationError` is an immutable text value routed to a mutation-only
operation. -/
inductive MarshalError where
  | bindingError
  | ownershipViolation
  | classificationError
deriving DecidableEq

/-- The Python host state in the `ctypes.md` string examples: the immutable
`original_string`, the bytes of the mutable `create_string_buffer` made
from it, and whether native code has written to host memory outside any
declared buffer. -/
structure PyState where
  original : String
  buffer : List Nat
  strayWrite : Bool
deriving DecidableEq

/-- `ctypes.create_string_buffer(str.encode(s))`: the bytes of the text
plus the NUL terminator the constructor appends. -/
def createStringBuffer (s : String) : List Nat :=
  s.toList.map Char.toNat ++ [0]

/-- The host state at the start of the `ctypes.md` string examples:
`original_string = "staring string"` and the mutable buffer copied from
it. -/
def pyInit : PyState :=
  { original := "staring string"
    buffer := createStringBuffer "staring string"
    strayWrite := false }

/-- `libc.add_one_to_string(mutable_string)` from `ctypes.md`: the call on
the mutable buffer rewrites the buffer in place; the immutable original
string is separate storage and is not touched. -/
def callAddOneOnBuffer (st : PyState) : PyState :=
  { st with buffer := add_one_to_string st.buffer }

/-- `libc.add_one_to_string(original_string)` from `ctypes.md`, the call on
the immutable Python string itself.  Per the source: "If we call this
passing in a Python string it runs, but does not modify the string … the
original_string is not available in the C function at all … the C function
modified some other memory, not the string … it also modifies memory that
it should not, leading to potential memory corruption issues."  So the call
returns normally (no boundary error of any kind), the original string and
the buffer are untouched, and a stray write to other host memory has
occurred. -/
def callAddOneOnStr (st : PyState) : Except MarshalError PyState :=
  Except.ok { st with strayWrite := true }

/-- A freed address is no longer live: looking it up after `heapRemove`
yields `none`. -/
theorem heapLookup_remove_self (h : Heap) (a : Nat) :
    heapLookup (heapRemove h a) a = none := by
  induction h with
  | nil => rfl
  | cons e t ih =>
    by_cases he : e.1 = a
    · simpa [heapRemove, he] using ih
    · simpa [heapRemove, he, heapLookup] using ih

/-- Looking up the written address after `heapUpdate`: the new value when
the address was live, still dead otherwise. -/
theorem heapLookup_update_self (h : Heap) (a : Nat) (p : Point) :
    heapLookup (heapUpdate h a p) a = (heapLookup h a).map (fun _ => p) := by
  induction h with
  | nil => rfl
  | cons e t ih =>
    by_cases he : e.1 = a
    · simp [heapUpdate, he, heapLookup]
    · simpa [heapUpdate, he, heapLookup] using ih

/-- `heapUpdate` touches no address other than the one written. -/
theorem heapLookup_update_ne (h : Heap) (a b : Nat) (p : Point) (hb : b ≠ a) :
    heapLookup (heapUpdate h a p) b = heapLookup h b := by
  induction h with
  | nil => rfl
  | cons e t ih =>
    by_cases he : e.1 = a
    · have : a ≠ b := fun e => hb e.symm
      simpa [heapUpdate, he, heapLookup, this] using ih
    · by_cases heb : e.1 = b
      · simp [heapUpdate, he, heapLookup, heb, hb]
      · simpa [heapUpdate, he, heapLookup, heb] using ih

/-- C1: an allocation obtained from `getPointPointer` is released by exactly
one `freePointPointer` call on that reference: whatever state `st` the
library is in, the first release of the fresh reference succeeds (removing
the cell), and a second release of the same reference from any state the
first release produced is undefined behaviour (`none`), never a normal
return — the allocation goes Allocated → Released and a release of a
Released handle is an error. -/
theorem alloc_free_exactly_once (st : CLibState) :
    (∃ out,
      freePointPointer (getPointPointer st).2.1 (getPointPointer st).1 =
        some ({ (getPointPointer st).2.1 with
                  heap := heapRemove (getPointPointer st).2.1.heap (getPointPointer st).1 },
              out)) ∧
    ∀ st₁ out,
      freePointPointer (getPointPointer st).2.1 (getPointPointer st).1 = some (st₁, out) →
        freePointPointer st₁ (getPointPointer st).1 = none := by
  constructor
  · refine ⟨["Freeing Point      (" ++ toString st.counter ++ ", " ++ toString (st.counter + 1)
      ++ ") at " ++ toString st.nextAddr], ?_⟩
    simp [getPointPointer, freePointPointer, heapLookup]
  · intro st₁ out hfree
    simp [getPointPointer, freePointPointer, heapLookup] at hfree
    obtain ⟨hst, -⟩ := hfree
    subst hst
    simp [freePointPointer, getPointPointer, heapLookup_remove_self]

/-- C3: from any starting counter state, two consecutive `getPoint` calls
return strictly increasing x and y values and each call advances the
counter by exactly two ticks; from the initial state (`counter = 0`) the
first call returns (0, 1) and the second (2, 3). -/
theorem getPoint_two_calls (st : CLibState) :
    ((getPoint st).1.x < (getPoint (getPoint st).2.1).1.x ∧
     (getPoint st).1.y < (getPoint (getPoint st).2.1).1.y) ∧
    ((getPoint st).2.1.counter = st.counter + 2 ∧
     (getPoint (getPoint st).2.1).2.1.counter = st.counter + 4) ∧
    ((getPoint initState).1 = Point.mk 0 1 ∧
     (getPoint (getPoint initState).2.1).1 = Point.mk 2 3) := by
  refine ⟨⟨?_, ?_⟩, ⟨rfl, ?_⟩, by decide, by decide⟩
  · show st.counter < st.counter + 2
    omega
  · show st.counter + 1 < st.counter + 2 + 1
    omega
  · show st.counter + 2 + 2 = st.counter + 4
    omega

/-- C4: `getPoint` and `getPointPointer` draw from the one shared counter,
two ticks per call, x then y: from any state with counter value `c`,
either operation yields the point (c, c + 1) — `getPointPointer` storing
it in the fresh cell it returns — and leaves the counter at `c + 2`; hence
interleaving them continues the same sequence, e.g. a `getPointPointer`
right after a `getPoint` stores (c + 2, c + 3). -/
theorem shared_counter_two_ticks (st : CLibState) :
    ((getPoint st).1 = Point.mk st.counter (st.counter + 1) ∧
     (getPoint st).2.1.counter = st.counter + 2) ∧
    (heapLookup (getPointPointer st).2.1.heap (getPointPointer st).1 =
        some (Point.mk st.counter (st.counter + 1)) ∧
     (getPointPointer st).2.1.counter = st.counter + 2) ∧
    ((getPointPointer (getPoint st).2.1).2.1.counter = st.counter + 4 ∧
     heapLookup (getPointPointer (getPoint st).2.1).2.1.heap
        (getPointPointer (getPoint st).2.1).1 =
          some (Point.mk (st.counter + 2) (st.counter + 3))) := by
  refine ⟨⟨rfl, rfl⟩, ⟨?_, rfl⟩, ⟨?_, ?_⟩⟩
  · simp [getPointPointer, heapLookup]
  · show st.counter + 2 + 2 = st.counter + 4
    omega
  · simp [getPoint, getPointPointer, heapLookup]
    omega

/-- C5: a by-value call `movePoint(p)` never touches the caller's storage:
whenever the caller's `Point` lives at address `a`, the call returns with
the library state exactly as it was (heap, counter and allocator all
unchanged), while the callee's local copy — visible in its output — was
incremented. -/
theorem movePoint_by_value_frame (st : CLibState) (a : Nat) (p : Point)
    (h : heapLookup st.heap a = some p) :
    callMovePoint st a = some (st, (movePoint p).2) ∧
    (movePoint p).1 = Point.mk (p.x + 1) (p.y + 1) :=
  ⟨by simp [callMovePoint, h], rfl⟩

/-- Witness for C5 at the concrete state holding (5, 7) at address 1. -/
theorem movePoint_by_value_frame_witness :
    heapLookup ({ counter := 4, heap := [(1, Point.mk 5 7)], nextAddr := 2 } : CLibState).heap 1 =
      some (Point.mk 5 7) ∧
    (callMovePoint { counter := 4, heap := [(1, Point.mk 5 7)], nextAddr := 2 } 1 =
        some ({ counter := 4, heap := [(1, Point.mk 5 7)], nextAddr := 2 },
          (movePoint (Point.mk 5 7)).2) ∧
     (movePoint (Point.mk 5 7)).1 = Point.mk (5 + 1) (7 + 1)) :=
  ⟨by decide,
   movePoint_by_value_frame { counter := 4, heap := [(1, Point.mk 5 7)], nextAddr := 2 } 1
     (Point.mk 5 7) (by decide)⟩

/-- C6: a by-reference call `movePointRef(&p)` increments both fields of
the caller's `Point` through the reference by exactly 1 and changes
nothing else: the result state is the old one with only the referenced
cell rewritten, the new stored value is (x + 1, y + 1), and every other
address reads as before. -/
theorem movePointRef_increments (st : CLibState) (a : Nat) (p : Point)
    (h : heapLookup st.heap a = some p) :
    (∃ out, movePointRef st a =
      some ({ st with heap := heapUpdate st.heap a (Point.mk (p.x + 1) (p.y + 1)) }, out)) ∧
    heapLookup (heapUpdate st.heap a (Point.mk (p.x + 1) (p.y + 1))) a =
      some (Point.mk (p.x + 1) (p.y + 1)) ∧
    ∀ b, b ≠ a →
      heapLookup (heapUpdate st.heap a (Point.mk (p.x + 1) (p.y + 1))) b = heapLookup st.heap b := by
  refine ⟨⟨["Point in C      is (" ++ toString p.x ++ ", " ++ toString p.y ++ ")",
    "New point in C  is (" ++ toString (p.x + 1) ++ ", " ++ toString (p.y + 1) ++ ")"], ?_⟩,
    ?_, ?_⟩
  · simp [movePointRef, h]
  · simp [heapLookup_update_self, h]
  · intro b hb
    exact heapLookup_update_ne st.heap a b _ hb

/-- Witness for C6 at the concrete state holding (5, 7) at address 1 and
(9, 9) at address 3. -/
theorem movePointRef_increments_witness :
    heapLookup ({ counter := 0, heap := [(1, Point.mk 5 7), (3, Point.mk 9 9)], nextAddr := 4 }
        : CLibState).heap 1 = some (Point.mk 5 7) ∧
    ((∃ out, movePointRef
        { counter := 0, heap := [(1, Point.mk 5 7), (3, Point.mk 9 9)], nextAddr := 4 } 1 =
        some ({ ({ counter := 0, heap := [(1, Point.mk 5 7), (3, Point.mk 9 9)], nextAddr := 4 }
                  : CLibState) with
                heap := heapUpdate [(1, Point.mk 5 7), (3, Point.mk 9 9)] 1
                  (Point.mk (5 + 1) (7 + 1)) }, out)) ∧
     heapLookup (heapUpdate [(1, Point.mk 5 7), (3, Point.mk 9 9)] 1 (Point.mk (5 + 1) (7 + 1))) 1 =
       some (Point.mk (5 + 1) (7 + 1)) ∧
     ∀ b, b ≠ 1 →
       heapLookup (heapUpdate [(1, Point.mk 5 7), (3, Point.mk 9 9)] 1 (Point.mk (5 + 1) (7 + 1))) b =
         heapLookup [(1, Point.mk 5 7), (3, Point.mk 9 9)] b) :=
  ⟨by decide,
   movePointRef_increments
     { counter := 0, heap := [(1, Point.mk 5 7), (3, Point.mk 9 9)], nextAddr := 4 } 1
     (Point.mk 5 7) (by decide)⟩

/-- C8: `showPoint` and `showPointRef` display identical coordinates — the
two embedded display functions agree on every `Point` — and a call to
either (on a point stored at a live address) returns the library state
unchanged: no mutation and no allocation. -/
theorem show_by_value_ref_agree (st : CLibState) (a : Nat) (p : Point)
    (h : heapLookup st.heap a = some p) :
    showPoint p = showPointRefBody p ∧
    callShowPoint st a = some (st, showPoint p) ∧
    callShowPointRef st a = some (st, showPointRefBody p) :=
  ⟨rfl, by simp [callShowPoint, h], by simp [callShowPointRef, h]⟩

/-- Witness for C8 at the concrete state holding (2, 9) at address 1. -/
theorem show_by_value_ref_agree_witness :
    heapLookup ({ counter := 0, heap := [(1, Point.mk 2 9)], nextAddr := 2 } : CLibState).heap 1 =
      some (Point.mk 2 9) ∧
    (showPoint (Point.mk 2 9) = showPointRefBody (Point.mk 2 9) ∧
     callShowPoint { counter := 0, heap := [(1, Point.mk 2 9)], nextAddr := 2 } 1 =
       some ({ counter := 0, heap := [(1, Point.mk 2 9)], nextAddr := 2 },
         showPoint (Point.mk 2 9)) ∧
     callShowPointRef { counter := 0, heap := [(1, Point.mk 2 9)], nextAddr := 2 } 1 =
       some ({ counter := 0, heap := [(1, Point.mk 2 9)], nextAddr := 2 },
         showPointRefBody (Point.mk 2 9))) :=
  ⟨by decide,
   show_by_value_ref_agree { counter := 0, heap := [(1, Point.mk 2 9)], nextAddr := 2 } 1
     (Point.mk 2 9) (by decide)⟩

/-- C9: `freePointPointer` reads both fields of the `Point` through its
argument (to print them) before freeing, so the call has a defined result
exactly on live storage: on a live cell it succeeds and its output shows
both fields, while on a dead address — in particular the null pointer 0,
which the allocator never hands out — the initial read is undefined
behaviour (`none`), not a safe no-op as `free(NULL)` would be. -/
theorem freePointPointer_needs_live (st : CLibState) (a : Nat) :
    (∀ p, heapLookup st.heap a = some p →
      freePointPointer st a =
        some ({ st with heap := heapRemove st.heap a },
          ["Freeing Point      (" ++ toString p.x ++ ", " ++ toString p.y ++ ") at "
            ++ toString a])) ∧
    (heapLookup st.heap a = none → freePointPointer st a = none) := by
  constructor
  · intro p h
    simp [freePointPointer, h]
  · intro h
    simp [freePointPointer, h]

/-- Witness for C9: in the initial state nothing is live, so releasing the
null pointer 0 is not a defined no-op but undefined behaviour. -/
theorem freePointPointer_needs_live_witness :
    heapLookup initState.heap 0 = none ∧ freePointPointer initState 0 = none :=
  ⟨by decide, (freePointPointer_needs_live initState 0).2 (by decide)⟩

/-- `strlen` never exceeds the buffer length. -/
theorem strlen_le_length (buf : List Nat) : strlen buf ≤ buf.length := by
  induction buf with
  | nil => exact Nat.le_refl 0
  | cons b rest ih =>
    by_cases hb : b = 0
    · simp [strlen, hb]
    · simpa [strlen, hb, Nat.succ_le_succ_iff] using ih

/-- Overwriting a byte strictly before the first zero byte never moves the
first zero byte further out: the new byte is either zero (shortening the
string) or nonzero (leaving the zero where it was). -/
theorem strlen_set_le (buf : List Nat) :
    ∀ ii v, ii < strlen buf → strlen (buf.set ii v) ≤ strlen buf := by
  induction buf with
  | nil => intro ii v h; simp [strlen] at h
  | cons b rest ih =>
    intro ii v h
    have hb : ¬b = 0 := by
      intro hb
      simp [strlen, hb] at h
    cases ii with
    | zero =>
      by_cases hv : v = 0 <;> simp [strlen, hb, hv]
    | succ ii =>
      have hii : ii < strlen rest := by
        simpa [strlen, hb, Nat.succ_lt_succ_iff] using h
      simpa [strlen, hb, Nat.succ_le_succ_iff] using ih ii v hii

/-- The loop of `add_one_to_string` leaves every byte at or after the first
zero byte of the current buffer untouched, whatever the fuel and the
current loop index. -/
theorem addOneAux_frame (fuel : Nat) :
    ∀ buf ii j, strlen buf ≤ j → (addOneAux fuel buf ii).get? j = buf.get? j := by
  induction fuel with
  | zero => intro buf ii j _; rfl
  | succ fuel ih =>
    intro buf ii j hj
    by_cases hlt : ii < strlen buf
    · have hne : ii ≠ j := Nat.ne_of_lt (Nat.lt_of_lt_of_le hlt hj)
      have hset : strlen (buf.set ii ((buf.getD ii 0 + 1) % 256)) ≤ j :=
        Nat.le_trans (strlen_set_le buf ii _ hlt) hj
      calc (addOneAux (fuel + 1) buf ii).get? j
          = (addOneAux fuel (buf.set ii ((buf.getD ii 0 + 1) % 256)) (ii + 1)).get? j := by
            simp [addOneAux, hlt]
        _ = (buf.set ii ((buf.getD ii 0 + 1) % 256)).get? j := ih _ _ _ hset
        _ = buf.get? j := by simp [List.getElem?_set_ne hne]
    · simp [addOneAux, hlt]

/-- C10: `add_one_to_string` modifies only the bytes strictly before the
first zero byte of its buffer: the byte at the position of the first zero
(the NUL terminator) and every byte after it read exactly as before the
call. -/
theorem addOneToString_frame (buf : List Nat) (j : Nat) (h : strlen buf ≤ j) :
    (add_one_to_string buf).get? j = buf.get? j :=
  addOneAux_frame buf.length buf 0 j h

/-- Witness for C10 on the buffer [7, 0, 9]: position 1 (the NUL) and
after are untouched. -/
theorem addOneToString_frame_witness :
    strlen [7, 0, 9] ≤ 1 ∧ (add_one_to_string [7, 0, 9]).get? 1 = ([7, 0, 9] : List Nat).get? 1 :=
  ⟨by decide, addOneToString_frame [7, 0, 9] 1 (by decide)⟩

/-- C7: the text "staring string", copied into a mutable byte buffer and
passed to `add_one_to_string`, comes back with every byte incremented by
one — the bytes of "tubsjoh!tusjoh" — while the immutable original string
(and everything else in the host state) is unchanged. -/
theorem mutable_buffer_call :
    callAddOneOnBuffer pyInit =
      { original := "staring string"
        buffer := createStringBuffer "tubsjoh!tusjoh"
        strayWrite := false } ∧
    (callAddOneOnBuffer pyInit).original = pyInit.original := by
  constructor <;> decide

/-- Counterexample for C2: in the `ctypes.md` host code, passing the
immutable Python string straight to `add_one_to_string` is NOT rejected
with a classification error — the call returns normally, and the resulting
host state records a native write outside any declared buffer. -/
theorem immutable_text_not_rejected :
    callAddOneOnStr pyInit ≠ Except.error MarshalError.classificationError ∧
    (∃ st, callAddOneOnStr pyInit = Except.ok st ∧ st.strayWrite = true) :=
  ⟨by simp [callAddOneOnStr], ⟨_, rfl, rfl⟩⟩

/-- C2 as amended: passing an immutable host text value directly to
`add_one_to_string` is silently executed, not rejected: from any host
state the call returns normally with no boundary error, the original
string and the mutable buffer are untouched, but the native code has
written to host memory outside any declared buffer (the potential memory
corruption `ctypes.md` warns about). -/
theorem immutable_text_silent_stray_write (st : PyState) :
    callAddOneOnStr st = Except.ok { st with strayWrite := true } ∧
    ∀ st', callAddOneOnStr st = Except.ok st' →
      st'.original = st.original ∧ st'.buffer = st.buffer ∧ st'.strayWrite = true := by
  refine ⟨rfl, ?_⟩
  intro st' h
  injection h with h
  subst h
  exact ⟨rfl, rfl, rfl⟩
